import Mathlib

/-!
Shallow embedding of the bitquery grpc-code-samples Rust client
(src/rust-demo/src/main.rs), a single-subscription gRPC streaming
demonstration program. Pure data flow (configuration, filter building,
request building, metadata attachment) is embedded as Lean functions;
the async streaming loop is embedded as a function over the list of
pull results the stream handle would yield; the top-level dispatch in
main is embedded as a trace of observable actions.
-/

set_option autoImplicit false

namespace GrpcSamples

/-! ## Configuration data model (structs Config, ServerConfig, StreamConfig,
FiltersConfig in main.rs, lines 22-52). Optional YAML lists become Option
(List String). -/

structure ServerConfig where
  address : String
  authorization : String
  insecure : Bool
deriving DecidableEq, Repr

structure StreamConfig where
  stream_type : String
deriving DecidableEq, Repr

structure FiltersConfig where
  programs : Option (List String)
  pools : Option (List String)
  tokens : Option (List String)
  traders : Option (List String)
  senders : Option (List String)
  receivers : Option (List String)
  addresses : Option (List String)
  signers : Option (List String)
deriving DecidableEq, Repr

structure Config where
  server : ServerConfig
  stream : StreamConfig
  filters : FiltersConfig
deriving DecidableEq, Repr

/-! ## Wire-level request shapes. AddressFilter and the six Subscribe*
request messages are prost-generated from the proto files listed in
build.rs; their field layout is reconstructed from how main.rs constructs
them (lines 79-84, 111-116, 141-145, 170-173, 193-197, 225-228). -/

structure AddressFilter where
  addresses : List String
deriving DecidableEq, Repr

structure SubscribeTradesRequest where
  program : Option AddressFilter
  pool : Option AddressFilter
  token : Option AddressFilter
  trader : Option AddressFilter
deriving DecidableEq, Repr

structure SubscribeOrdersRequest where
  program : Option AddressFilter
  pool : Option AddressFilter
  token : Option AddressFilter
  trader : Option AddressFilter
deriving DecidableEq, Repr

structure SubscribePoolsRequest where
  program : Option AddressFilter
  pool : Option AddressFilter
  token : Option AddressFilter
deriving DecidableEq, Repr

structure SubscribeTransactionsRequest where
  program : Option AddressFilter
  signer : Option AddressFilter
deriving DecidableEq, Repr

structure SubscribeTransfersRequest where
  sender : Option AddressFilter
  receiver : Option AddressFilter
  token : Option AddressFilter
deriving DecidableEq, Repr

structure SubscribeBalanceUpdateRequest where
  address : Option AddressFilter
  token : Option AddressFilter
deriving DecidableEq, Repr

/-- Embeds fn create_address_filter (main.rs lines 60-62):
addresses.map turns an absent list into no filter and wraps a present
list, empty or not, in an AddressFilter. -/
def create_address_filter (addresses : Option (List String)) : Option AddressFilter :=
  addresses.map (fun addrs => { addresses := addrs })

/-- Request built inside stream_dex_trades (main.rs lines 79-84). -/
def buildTradesRequest (config : Config) : SubscribeTradesRequest :=
  { program := create_address_filter config.filters.programs
  , pool := create_address_filter config.filters.pools
  , token := create_address_filter config.filters.tokens
  , trader := create_address_filter config.filters.traders }

/-- Request built inside stream_dex_orders (main.rs lines 111-116). -/
def buildOrdersRequest (config : Config) : SubscribeOrdersRequest :=
  { program := create_address_filter config.filters.programs
  , pool := create_address_filter config.filters.pools
  , token := create_address_filter config.filters.tokens
  , trader := create_address_filter config.filters.traders }

/-- Request built inside stream_dex_pools (main.rs lines 141-145). -/
def buildPoolsRequest (config : Config) : SubscribePoolsRequest :=
  { program := create_address_filter config.filters.programs
  , pool := create_address_filter config.filters.pools
  , token := create_address_filter config.filters.tokens }

/-- Request built inside stream_transactions (main.rs lines 170-173). -/
def buildTransactionsRequest (config : Config) : SubscribeTransactionsRequest :=
  { program := create_address_filter config.filters.programs
  , signer := create_address_filter config.filters.signers }

/-- Request built inside stream_transfers (main.rs lines 193-197). -/
def buildTransfersRequest (config : Config) : SubscribeTransfersRequest :=
  { sender := create_address_filter config.filters.senders
  , receiver := create_address_filter config.filters.receivers
  , token := create_address_filter config.filters.tokens }

/-- Request built inside stream_balances (main.rs lines 225-228). -/
def buildBalancesRequest (config : Config) : SubscribeBalanceUpdateRequest :=
  { address := create_address_filter config.filters.addresses
  , token := create_address_filter config.filters.tokens }

/-- All address strings occurring anywhere in a pools request, used to state
that trader and signer values appear nowhere in it. -/
def poolsRequestStrings (r : SubscribePoolsRequest) : List String :=
  ((r.program.map AddressFilter.addresses).getD [])
    ++ ((r.pool.map AddressFilter.addresses).getD [])
    ++ ((r.token.map AddressFilter.addresses).getD [])

/-! ## tonic request and metadata model (external collaborator).
tonic::Request::new creates a request with empty metadata;
MetadataMap::insert replaces any previous entry under the same key;
MetadataValue::try_from fails unless every character of the string is
visible ASCII, space or horizontal tab (the http crate HeaderValue
validity check). Metadata is modelled as an association list consulted
through List.lookup. -/

structure GrpcRequest (T : Type) where
  message : T
  metadata : List (String × String)
deriving DecidableEq, Repr

def GrpcRequest.new {T : Type} (message : T) : GrpcRequest T :=
  { message := message, metadata := [] }

def isValidHeaderValueChar (c : Char) : Bool :=
  (32 ≤ c.toNat && c.toNat ≠ 127) || c.toNat = 9

def isValidHeaderValue (s : String) : Bool :=
  s.toList.all isValidHeaderValueChar

def metadataInsert (k v : String) (m : List (String × String)) : List (String × String) :=
  (k, v) :: m.filter (fun p => p.1 ≠ k)

/-- Embeds fn add_auth_header (main.rs lines 68-74): when the configured
authorization string is non-empty, build the value Bearer plus the token,
fail if it is not a valid header value, otherwise insert it under the
metadata key authorization; when the string is empty, pass the request
through untouched. -/
def add_auth_header {T : Type} (request : GrpcRequest T) (config : Config) :
    Except String (GrpcRequest T) :=
  if !config.server.authorization.isEmpty then
    let auth_value := "Bearer " ++ config.server.authorization
    if isValidHeaderValue auth_value then
      Except.ok { request with
        metadata := metadataInsert "authorization" auth_value request.metadata }
    else
      Except.error "invalid metadata value"
  else
    Except.ok request

/-! ## Incoming message shapes. The stream message types are prost-generated
from proto files listed in build.rs; the fields below are reconstructed from
the accesses main.rs performs on them (lines 93-100 for trades, 237-242 for
balance updates). Binary address fields are byte lists. -/

structure BlockInfo where
  slot : Nat
deriving DecidableEq, Repr

structure DexInfo where
  program_address : List Nat
deriving DecidableEq, Repr

structure MarketInfo where
  market_address : List Nat
deriving DecidableEq, Repr

structure TradeInfo where
  dex : Option DexInfo
  market : Option MarketInfo
deriving DecidableEq, Repr

structure TradeMessage where
  block : Option BlockInfo
  trade : Option TradeInfo
deriving DecidableEq, Repr

structure CurrencyInfo where
  mint_address : List Nat
deriving DecidableEq, Repr

structure BalanceUpdateInfo where
  currency : Option CurrencyInfo
deriving DecidableEq, Repr

structure BalanceMessage where
  block : Option BlockInfo
  balance_update : Option BalanceUpdateInfo
deriving DecidableEq, Repr

/-! ## Base58 text encoding (fn encode_base58, main.rs lines 64-66, backed by
the bs58 crate with the standard Bitcoin alphabet): leading zero bytes map to
the character 1, the rest is the big-endian value written in base 58. -/

def base58Alphabet : List Char :=
  "123456789ABCDEFGHJKLMNPQRSTUVWXYZabcdefghijkmnopqrstuvwxyz".toList

def base58Digit (d : Nat) : Char :=
  base58Alphabet.getD d '1'

def natToBase58 (n : Nat) : List Char :=
  if h : n = 0 then []
  else natToBase58 (n / 58) ++ [base58Digit (n % 58)]
termination_by n
decreasing_by
  exact Nat.div_lt_self (Nat.pos_of_ne_zero h) (by decide)

def bytesToNat (bs : List Nat) : Nat :=
  bs.foldl (fun acc b => acc * 256 + b) 0

def encode_base58 (bs : List Nat) : String :=
  String.mk (List.replicate ((bs.takeWhile (fun b => b = 0)).length) '1'
    ++ natToBase58 (bytesToNat bs))

/-! ## Per-message rendering. Each println in the loop body becomes one
emitted line value carrying the data the format string would interpolate.
Lines are tagged by which println produced them. -/

inductive TradeLine
  | header
  | blockSlot (slot : Option Nat)
  | tradeProgram (addr : String)
  | tradeMarket (addr : String)
deriving DecidableEq, Repr

inductive BalanceLine
  | header
  | blockSlot (slot : Option Nat)
  | balanceToken (addr : String)
  | firstProcessed
deriving DecidableEq, Repr

/-- Loop body of stream_dex_trades (main.rs lines 92-101): the header and the
block slot line are printed unconditionally (an absent block prints as the
absent option), the program and market lines only when message.trade and the
corresponding nested field are present. -/
def renderTradeMessage (m : TradeMessage) : List TradeLine :=
  [TradeLine.header, TradeLine.blockSlot (m.block.map BlockInfo.slot)]
    ++ (match m.trade with
        | some trade =>
            (match trade.dex with
             | some dex => [TradeLine.tradeProgram (encode_base58 dex.program_address)]
             | none => [])
            ++ (match trade.market with
                | some market => [TradeLine.tradeMarket (encode_base58 market.market_address)]
                | none => [])
        | none => [])

/-- Loop body of stream_balances (main.rs lines 236-244): header and block
slot line unconditionally, the token line only when balance_update and its
currency are present, then the exit notice of the bounded loop. -/
def renderBalanceMessage (m : BalanceMessage) : List BalanceLine :=
  [BalanceLine.header, BalanceLine.blockSlot (m.block.map BlockInfo.slot)]
    ++ (match m.balance_update with
        | some bu =>
            (match bu.currency with
             | some currency => [BalanceLine.balanceToken (encode_base58 currency.mint_address)]
             | none => [])
        | none => [])
    ++ [BalanceLine.firstProcessed]

/-! ## Stream consumption loops. A stream handle is modelled by the list of
results its successive message() pulls would produce: an ok item is a
delivered message, an error item is a mid-stream failure, and the end of the
list is a clean server-side close (the pull that observes it returns the
empty option). A loop run records the messages rendered in order, the number
of pulls performed, and the outcome. gRPC status errors are carried as an
opaque type. -/

structure GrpcStatus where
  description : String
deriving DecidableEq, Repr

instance exceptDecEq {ε α : Type} [DecidableEq ε] [DecidableEq α] :
    DecidableEq (Except ε α) := fun a b =>
  match a, b with
  | Except.ok x, Except.ok y =>
      if h : x = y then isTrue (by rw [h]) else isFalse (by simp [h])
  | Except.error x, Except.error y =>
      if h : x = y then isTrue (by rw [h]) else isFalse (by simp [h])
  | Except.ok _, Except.error _ => isFalse (by simp)
  | Except.error _, Except.ok _ => isFalse (by simp)

structure LoopResult (μ : Type) where
  rendered : List μ
  pulls : Nat
  outcome : Except GrpcStatus Unit
deriving DecidableEq, Repr

/-- Consumption loop of stream_dex_trades (main.rs lines 91-103): while the
pull yields a message, render it and continue; a clean close ends the loop
with success; an error propagates out immediately through the question mark
operator, and nothing further is pulled. The loops of stream_dex_orders,
stream_dex_pools, stream_transactions and stream_transfers have the same
unbounded shape. -/
def tradesConsumptionLoop : List (Except GrpcStatus TradeMessage) → LoopResult TradeMessage
  | [] => { rendered := [], pulls := 1, outcome := Except.ok () }
  | Except.ok m :: rest =>
      let r := tradesConsumptionLoop rest
      { rendered := m :: r.rendered, pulls := r.pulls + 1, outcome := r.outcome }
  | Except.error e :: _ => { rendered := [], pulls := 1, outcome := Except.error e }

/-- Consumption loop of stream_balances (main.rs lines 235-246): identical to
the unbounded loop except that the body ends in break, so at most the first
delivered message is rendered and no second pull happens after it. -/
def balancesConsumptionLoop : List (Except GrpcStatus BalanceMessage) → LoopResult BalanceMessage
  | [] => { rendered := [], pulls := 1, outcome := Except.ok () }
  | Except.ok m :: _ => { rendered := [m], pulls := 1, outcome := Except.ok () }
  | Except.error e :: _ => { rendered := [], pulls := 1, outcome := Except.error e }

/-! ## Top-level dispatch (fn main, main.rs lines 251-292). After loading the
configuration, main builds the server URL, connects the channel, and only
then matches on the configured stream type; an unrecognized type prints an
error naming the six supported types and exits the process with code 1. The
observable actions of a run with a successful connection are recorded as a
trace. -/

inductive MainAction
  | connect (url : String)
  | subscribe (kind : String)
  | reportUnknown (msg : String)
  | exitProcess (code : Nat)
deriving DecidableEq, Repr

/-- Server URL construction (main.rs lines 261-262): http when the insecure
flag is set, https otherwise. -/
def serverUrl (config : Config) : String :=
  (if config.server.insecure then "http" else "https") ++ "://" ++ config.server.address

/-- Error text printed for an unrecognized stream type (main.rs lines 285-286). -/
def unknownStreamTypeMessage (t : String) : String :=
  "Unknown stream type: " ++ t
    ++ ". Supported types: dex_trades|dex_orders|dex_pools|transactions|transfers|balances"

/-- The six recognized stream type identifiers (match arms, main.rs 278-283). -/
def validStreamTypes : List String :=
  ["dex_trades", "dex_orders", "dex_pools", "transactions", "transfers", "balances"]

/-- The match on config.stream.stream_type (main.rs lines 277-289), written as
the sequential string comparisons a match on string slices performs. -/
def dispatchActions (config : Config) : List MainAction :=
  if config.stream.stream_type = "dex_trades" then [MainAction.subscribe "dex_trades"]
  else if config.stream.stream_type = "dex_orders" then [MainAction.subscribe "dex_orders"]
  else if config.stream.stream_type = "dex_pools" then [MainAction.subscribe "dex_pools"]
  else if config.stream.stream_type = "transactions" then [MainAction.subscribe "transactions"]
  else if config.stream.stream_type = "transfers" then [MainAction.subscribe "transfers"]
  else if config.stream.stream_type = "balances" then [MainAction.subscribe "balances"]
  else [MainAction.reportUnknown (unknownStreamTypeMessage config.stream.stream_type),
        MainAction.exitProcess 1]

/-- Action trace of fn main (main.rs lines 251-292) for a run whose channel
connection succeeds: the connection is established first (lines 266-272),
dispatch on the stream type happens after it (lines 277-289). Even when the
connection attempt fails it is still attempted before any dispatch. -/
def mainTrace (config : Config) : List MainAction :=
  MainAction.connect (serverUrl config) :: dispatchActions config

/-! ## Concrete sample values used by witnesses and counterexamples. -/

def emptyFilters : FiltersConfig :=
  { programs := none, pools := none, tokens := none, traders := none
  , senders := none, receivers := none, addresses := none, signers := none }

def tok123Config : Config :=
  { server := { address := "corecast.example.com:443", authorization := "tok123", insecure := false }
  , stream := { stream_type := "dex_trades" }
  , filters := emptyFilters }

def bogusConfig : Config :=
  { server := { address := "corecast.example.com:443", authorization := "", insecure := false }
  , stream := { stream_type := "bogus" }
  , filters := emptyFilters }

def poolsConfigA : Config :=
  { server := { address := "corecast.example.com:443", authorization := "", insecure := false }
  , stream := { stream_type := "dex_pools" }
  , filters := { emptyFilters with
      programs := some ["Prog1"], tokens := some ["Tok1"]
    , traders := some ["TraderOne"], signers := some ["SignerOne"] } }

def poolsConfigB : Config :=
  { server := { address := "corecast.example.com:443", authorization := "", insecure := false }
  , stream := { stream_type := "dex_pools" }
  , filters := { emptyFilters with
      programs := some ["Prog1"], tokens := some ["Tok1"]
    , traders := none, signers := some ["SignerTwo"] } }

def frameSampleRequest : GrpcRequest Nat :=
  { message := 5, metadata := [("x-api", "1")] }

def sampleTradeMessage : TradeMessage :=
  { block := some { slot := 1 }, trade := none }

def sampleBalanceMessage : BalanceMessage :=
  { block := some { slot := 1 }, balance_update := none }

/-! ## Theorems for the claims. -/

/-- Claim C1, counterexample: a configured list that is present but empty
does NOT propagate as an absent request field; create_address_filter maps it
to a present filter containing zero addresses, contradicting the claim that
an empty list yields an absent field. -/
theorem create_address_filter_empty_list_counterexample :
    create_address_filter (some ([] : List String)) = some { addresses := [] } ∧
    create_address_filter (some ([] : List String)) ≠ none := by
  constructor
  · rfl
  · intro h
    simp [create_address_filter] at h

/-- Claim C1, amended: the request field is a present filter iff the
configuration list is present (Option.isSome), regardless of emptiness; an
absent list propagates as no filter, and any present list, empty included,
is wrapped verbatim as a present filter. -/
theorem address_filter_present_iff_list_present :
    ∀ o : Option (List String),
      (create_address_filter o = none ↔ o = none) ∧
      ∀ l : List String, create_address_filter (some l) = some { addresses := l } := by
  intro o
  refine ⟨?_, fun l => rfl⟩
  cases o <;> simp [create_address_filter]

/-- Claim C5: for every non-empty configured address list, the built filter
wraps exactly the configured strings, in the same order, unmodified. -/
theorem filter_passthrough_exact (l : List String) (h : l ≠ []) :
    create_address_filter (some l) = some { addresses := l } := rfl

/-- Witness for claim C5 at a concrete list with a duplicate and two case
variants of the same address, showing no deduplication or case-folding. -/
theorem filter_passthrough_exact_witness :
    (["Addr1", "addr1", "Addr1"] : List String) ≠ [] ∧
    create_address_filter (some ["Addr1", "addr1", "Addr1"]) =
      some { addresses := ["Addr1", "addr1", "Addr1"] } :=
  ⟨by decide, filter_passthrough_exact ["Addr1", "addr1", "Addr1"] (by decide)⟩

/-- Claim C4: for a fresh outgoing request, add_auth_header attaches the
authorization metadata iff the configured credential is non-empty, and when
attached its value is the string Bearer, a space, and the credential. -/
theorem auth_header_gating {T : Type} (payload : T) (config : Config)
    (req : GrpcRequest T)
    (h : add_auth_header (GrpcRequest.new payload) config = Except.ok req) :
    req.metadata.lookup "authorization" =
      if config.server.authorization.isEmpty then none
      else some ("Bearer " ++ config.server.authorization) := by
  by_cases he : config.server.authorization.isEmpty
  · simp [add_auth_header, he] at h
    subst h
    simp [he, GrpcRequest.new]
  · by_cases hv : isValidHeaderValue ("Bearer " ++ config.server.authorization)
    · simp [add_auth_header, he, hv] at h
      subst h
      simp [he, GrpcRequest.new, metadataInsert, List.lookup]
    · simp [add_auth_header, he, hv] at h

/-- Witness for claim C4 at the credential tok123: the attached value is
exactly Bearer tok123. -/
theorem auth_header_gating_witness :
    add_auth_header (GrpcRequest.new (0 : Nat)) tok123Config =
      Except.ok { message := 0, metadata := [("authorization", "Bearer tok123")] } ∧
    ({ message := 0, metadata := [("authorization", "Bearer tok123")] } : GrpcRequest Nat).metadata.lookup "authorization" =
      (if tok123Config.server.authorization.isEmpty then none
       else some ("Bearer " ++ tok123Config.server.authorization)) :=
  ⟨by decide,
   auth_header_gating (0 : Nat) tok123Config
     { message := 0, metadata := [("authorization", "Bearer tok123")] } (by decide)⟩

theorem lookup_cons_pair (k a1 a2 : String) (t : List (String × String)) :
    ((a1, a2) :: t).lookup k = if (k == a1) then some a2 else t.lookup k := by
  cases h : k == a1 <;> simp [List.lookup, h]

theorem lookup_filter_ne (k key : String) (m : List (String × String))
    (hk : k ≠ key) :
    (m.filter (fun p => p.1 ≠ key)).lookup k = m.lookup k := by
  induction m with
  | nil => rfl
  | cons a t ih =>
      obtain ⟨a1, a2⟩ := a
      by_cases ha : a1 = key
      · rw [List.filter_cons_of_neg (by simp [ha]), ih, lookup_cons_pair,
          if_neg (by simp [ha]; exact hk)]
      · rw [List.filter_cons_of_pos (by simp [ha]), lookup_cons_pair,
          lookup_cons_pair, ih]

/-- Claim C9: add_auth_header never changes the inner message, and the only
metadata key whose binding it may change is authorization; every other key
looks up to the same value before and after. -/
theorem add_auth_header_frame {T : Type} (request : GrpcRequest T) (config : Config)
    (req : GrpcRequest T)
    (h : add_auth_header request config = Except.ok req) :
    req.message = request.message ∧
    ∀ k : String, k ≠ "authorization" →
      req.metadata.lookup k = request.metadata.lookup k := by
  by_cases he : config.server.authorization.isEmpty
  · simp [add_auth_header, he] at h
    subst h
    exact ⟨rfl, fun k _ => rfl⟩
  · by_cases hv : isValidHeaderValue ("Bearer " ++ config.server.authorization)
    · simp [add_auth_header, he, hv] at h
      subst h
      refine ⟨rfl, fun k hk => ?_⟩
      show (metadataInsert "authorization" _ request.metadata).lookup k = _
      rw [metadataInsert, lookup_cons_pair, if_neg (by simp; exact hk)]
      exact lookup_filter_ne k "authorization" request.metadata hk
    · simp [add_auth_header, he, hv] at h

/-- Witness for claim C9: attaching the tok123 credential to a request that
already carries an unrelated metadata entry preserves the payload and the
unrelated entry. -/
theorem add_auth_header_frame_witness :
    ({ message := 5, metadata := [("authorization", "Bearer tok123"), ("x-api", "1")] } : GrpcRequest Nat).message = frameSampleRequest.message ∧
    ({ message := 5, metadata := [("authorization", "Bearer tok123"), ("x-api", "1")] } : GrpcRequest Nat).metadata.lookup "x-api" = frameSampleRequest.metadata.lookup "x-api" :=
  ⟨(add_auth_header_frame frameSampleRequest tok123Config
      { message := 5, metadata := [("authorization", "Bearer tok123"), ("x-api", "1")] }
      (by decide)).1,
   (add_auth_header_frame frameSampleRequest tok123Config
      { message := 5, metadata := [("authorization", "Bearer tok123"), ("x-api", "1")] }
      (by decide)).2 "x-api" (by decide)⟩

theorem addresses_of_create_address_filter (o : Option (List String)) :
    ((create_address_filter o).map AddressFilter.addresses).getD [] = o.getD [] := by
  cases o <;> rfl

/-- Claim C6: the pools request depends only on the programs, pools and
tokens lists; two configurations agreeing on those build identical pools
requests whatever their traders and signers are, and every address string in
the built request comes from one of the three used lists. -/
theorem pools_request_dimension_isolation (c1 c2 : Config)
    (hprog : c1.filters.programs = c2.filters.programs)
    (hpool : c1.filters.pools = c2.filters.pools)
    (htok : c1.filters.tokens = c2.filters.tokens) :
    buildPoolsRequest c1 = buildPoolsRequest c2 ∧
    ∀ s : String, s ∈ poolsRequestStrings (buildPoolsRequest c1) →
      s ∈ (c1.filters.programs.getD [] ++ c1.filters.pools.getD []
            ++ c1.filters.tokens.getD []) := by
  constructor
  · simp [buildPoolsRequest, hprog, hpool, htok]
  · intro s hs
    have h1 : poolsRequestStrings (buildPoolsRequest c1) =
        c1.filters.programs.getD [] ++ c1.filters.pools.getD []
          ++ c1.filters.tokens.getD [] := by
      show ((create_address_filter c1.filters.programs).map AddressFilter.addresses).getD []
          ++ ((create_address_filter c1.filters.pools).map AddressFilter.addresses).getD []
          ++ ((create_address_filter c1.filters.tokens).map AddressFilter.addresses).getD [] = _
      rw [addresses_of_create_address_filter, addresses_of_create_address_filter,
        addresses_of_create_address_filter]
    rw [h1] at hs
    exact hs

/-- Witness for claim C6: two concrete configurations that differ only in
their traders and signers lists build the same pools request, and a
configured program address in it comes from the used lists. -/
theorem pools_request_dimension_isolation_witness :
    (poolsConfigA.filters.programs = poolsConfigB.filters.programs ∧
     poolsConfigA.filters.pools = poolsConfigB.filters.pools ∧
     poolsConfigA.filters.tokens = poolsConfigB.filters.tokens) ∧
    buildPoolsRequest poolsConfigA = buildPoolsRequest poolsConfigB ∧
    "Prog1" ∈ (poolsConfigA.filters.programs.getD [] ++ poolsConfigA.filters.pools.getD []
      ++ poolsConfigA.filters.tokens.getD []) :=
  ⟨⟨rfl, rfl, rfl⟩,
   (pools_request_dimension_isolation poolsConfigA poolsConfigB rfl rfl rfl).1,
   (pools_request_dimension_isolation poolsConfigA poolsConfigB rfl rfl rfl).2
     "Prog1" (by decide)⟩

/-- Claim C2, counterexample: with the unrecognized stream type bogus, the
run still establishes the channel connection, because main connects before
matching on the stream type; the claim that zero network calls occur (no
connection establishment) is false on the code. -/
theorem bogus_stream_type_still_connects :
    MainAction.connect (serverUrl bogusConfig) ∈ mainTrace bogusConfig := by
  simp [mainTrace]

/-- Claim C2, amended: an unrecognized stream type makes the run print the
error naming the six valid identifiers and exit the process with code 1,
and no subscription call is ever attempted; however the channel connection
is established before dispatch, so connection establishment does occur. -/
theorem unknown_stream_type_reports_and_exits (config : Config)
    (h : config.stream.stream_type ∉ validStreamTypes) :
    mainTrace config =
      [MainAction.connect (serverUrl config),
       MainAction.reportUnknown (unknownStreamTypeMessage config.stream.stream_type),
       MainAction.exitProcess 1] ∧
    ∀ k : String, MainAction.subscribe k ∉ mainTrace config := by
  simp [validStreamTypes] at h
  obtain ⟨h1, h2, h3, h4, h5, h6⟩ := h
  refine ⟨?_, ?_⟩
  · simp [mainTrace, dispatchActions, h1, h2, h3, h4, h5, h6]
  · intro k
    simp [mainTrace, dispatchActions, h1, h2, h3, h4, h5, h6]

/-- Witness for claim C2 at the concrete stream type bogus. -/
theorem unknown_stream_type_reports_and_exits_witness :
    bogusConfig.stream.stream_type ∉ validStreamTypes ∧
    mainTrace bogusConfig =
      [MainAction.connect (serverUrl bogusConfig),
       MainAction.reportUnknown (unknownStreamTypeMessage bogusConfig.stream.stream_type),
       MainAction.exitProcess 1] :=
  ⟨by decide,
   (unknown_stream_type_reports_and_exits bogusConfig (by decide)).1⟩

/-- Claim C3, counterexample: fed identical two-message streams, the trades
pipeline renders both messages while the balances pipeline renders exactly
one; the termination policy is fixed by each pipeline, with no
caller-supplied configuration selecting it. -/
theorem termination_policy_differs_across_pipelines :
    (tradesConsumptionLoop
      [Except.ok sampleTradeMessage, Except.ok sampleTradeMessage]).rendered.length = 2 ∧
    (balancesConsumptionLoop
      [Except.ok sampleBalanceMessage, Except.ok sampleBalanceMessage]).rendered.length = 1 := by
  constructor <;> rfl

/-- Claim C3, amended: both termination policies exist in the code but each
is hardcoded to its pipeline: the trades loop renders every delivered
message of any error-free stream, while the balances loop renders only the
first. -/
theorem termination_policy_hardcoded_per_pipeline :
    (∀ ms : List TradeMessage,
      (tradesConsumptionLoop (ms.map Except.ok)).rendered = ms) ∧
    (∀ ms : List BalanceMessage,
      (balancesConsumptionLoop (ms.map Except.ok)).rendered = ms.take 1) := by
  constructor
  · intro ms
    induction ms with
    | nil => rfl
    | cons m t ih => simp [tradesConsumptionLoop, ih]
  · intro ms
    cases ms <;> rfl

/-- Claim C7: under the unbounded policy, a stream delivering the messages
ms and then closing cleanly renders exactly ms in arrival order, pulls once
per message plus the closing pull, and the run reports success. -/
theorem unbounded_loop_renders_all_in_order (ms : List TradeMessage) :
    tradesConsumptionLoop (ms.map Except.ok) =
      { rendered := ms, pulls := ms.length + 1, outcome := Except.ok () } := by
  induction ms with
  | nil => rfl
  | cons m t ih => simp [tradesConsumptionLoop, ih]

/-- Claim C8: a stream delivering the messages ms and then an error renders
exactly ms, stops immediately with the underlying status preserved in the
StreamError outcome, and performs no pull beyond the one that observed the
error, whatever items lie beyond it. -/
theorem midstream_error_stops_loop (ms : List TradeMessage) (e : GrpcStatus)
    (rest : List (Except GrpcStatus TradeMessage)) :
    tradesConsumptionLoop (ms.map Except.ok ++ Except.error e :: rest) =
      { rendered := ms, pulls := ms.length + 1, outcome := Except.error e } := by
  induction ms with
  | nil => rfl
  | cons m t ih => simp [tradesConsumptionLoop, ih]

/-- Claim C10: for every incoming message the loop body emits the block slot
line unconditionally, carrying the possibly absent slot, while the
payload-specific lines appear iff the corresponding nested sub-structures
are present; stated for the trades and balances loop bodies. -/
theorem block_slot_always_payload_conditional :
    (∀ m : TradeMessage,
      TradeLine.blockSlot (m.block.map BlockInfo.slot) ∈ renderTradeMessage m ∧
      ((∃ a, TradeLine.tradeProgram a ∈ renderTradeMessage m) ↔
        (m.trade.bind TradeInfo.dex).isSome = true) ∧
      ((∃ a, TradeLine.tradeMarket a ∈ renderTradeMessage m) ↔
        (m.trade.bind TradeInfo.market).isSome = true)) ∧
    (∀ m : BalanceMessage,
      BalanceLine.blockSlot (m.block.map BlockInfo.slot) ∈ renderBalanceMessage m ∧
      ((∃ a, BalanceLine.balanceToken a ∈ renderBalanceMessage m) ↔
        (m.balance_update.bind BalanceUpdateInfo.currency).isSome = true)) := by
  constructor
  · intro m
    obtain ⟨b, t⟩ := m
    rcases t with _ | ⟨d, mk⟩
    · simp [renderTradeMessage]
    · rcases d with _ | d <;> rcases mk with _ | mk <;> simp [renderTradeMessage]
  · intro m
    obtain ⟨b, bu⟩ := m
    rcases bu with _ | ⟨c⟩
    · simp [renderBalanceMessage]
    · rcases c with _ | c <;> simp [renderBalanceMessage]

end GrpcSamples
